import Mathlib

/-!
Verification of the news-automation pipeline (`news_automation.py`).

Texts are shallowly embedded as `List Char` (Python `str` is a sequence of
code points, and Python slicing/length count code points, as `List Char`
does).  External library calls (HTML stripping via BeautifulSoup, RFC-2822
date parsing via `parsedate_tz`, feed fetching via `feedparser`, the Gemini
generation call, the edge-tts synthesis call, the Telegram HTTP posts) are
modelled as explicit function parameters or boolean outcome parameters; all
logic of the script itself is translated directly from the source.
-/

/-- Python `str` values are modelled as lists of code points. -/
abbrev Str := List Char

/-- The characters matched by Python's `\s` on the ASCII range (space, tab,
newline, carriage return, vertical tab, form feed). -/
def pyIsSpace (c : Char) : Bool :=
  c == ' ' || c == '\t' || c == '\n' || c == '\r' || c == Char.ofNat 11 || c == Char.ofNat 12

/-- `re.sub(r'\s+', ' ', s)`: every maximal run of whitespace becomes a single
space. -/
def collapseWs : Str → Str
  | [] => []
  | c :: rest =>
    if pyIsSpace c then
      match rest with
      | r :: _ => if pyIsSpace r then collapseWs rest else ' ' :: collapseWs rest
      | [] => [' ']
    else c :: collapseWs rest

/-- Python `str.strip()`: drop whitespace from both ends. -/
def stripList (l : Str) : Str :=
  ((l.dropWhile pyIsSpace).reverse.dropWhile pyIsSpace).reverse

/-- Python `str.startswith`. -/
def startsWith : Str → Str → Bool
  | [], _ => true
  | _ :: _, [] => false
  | p :: ps, c :: cs => p == c && startsWith ps cs

/-- Python's `in` operator on strings (substring test). -/
def containsSub (pat : Str) : Str → Bool
  | [] => pat.isEmpty
  | c :: rest => startsWith pat (c :: rest) || containsSub pat rest

/-- Python `str.split('\n')`. -/
def splitNl : Str → List Str
  | [] => [[]]
  | c :: rest =>
    match splitNl rest with
    | [] => [[]]
    | h :: t => if c == '\n' then [] :: h :: t else (c :: h) :: t

/-- The character class of the emoji-removal regex in
`prepare_tts_text_with_pauses` (the exact code points of the Python
character class, including the variation selector). -/
def emojiChars : Str := "🪖🏛️📈🤖📰🌍🇰🇷".data

/-- `re.sub(r'[🪖🏛️📈🤖📰🌍🇰🇷]', '', s)`. -/
def removeEmojis (l : Str) : Str := l.filter (fun c => !(emojiChars.contains c))

/-- `re.sub(r'[─]+', '', s)` (the replacement is empty, so removing runs is
removing every occurrence of the character). -/
def removeDashes (l : Str) : Str := l.filter (fun c => !(c == '─'))

/-- `re.sub(r'•', '', s)`. -/
def removeBullets (l : Str) : Str := l.filter (fun c => !(c == '•'))

/-- Step 1 of `prepare_tts_text_with_pauses` (also repeated verbatim in the
plain-text fallback branch of `generate_news_audio`): remove emoji,
separator rules and bullet markers, collapse whitespace, strip. -/
def clean_stage (text : Str) : Str :=
  stripList (collapseWs (removeBullets (removeDashes (removeEmojis text))))

/-- The closing sentence appended when the cleaned text exceeds 3000
characters. -/
def closingSent : Str := "이상으로 오늘의 뉴스 요약을 마치겠습니다.".data

/-- Step 2 of `prepare_tts_text_with_pauses`:
`if len(clean_content) > 3000: clean_content = clean_content[:3000] + ...`. -/
def cap3000 (l : Str) : Str :=
  if 3000 < l.length then l.take 3000 ++ closingSent else l

/-- `<break time="0.5s"/>`, inserted between lines by the SSML loop. -/
def brk05 : Str := "<break time=\"0.5s\"/>".data

/-- `<break time="0.3s"/>`, substituted for `|`. -/
def brk03 : Str := "<break time=\"0.3s\"/>".data

/-- `<break time="0.7s"/>`, appended after `완료`. -/
def brk07 : Str := "<break time=\"0.7s\"/>".data

/-- The SSML assembly loop of `prepare_tts_text_with_pauses`: for each line
(stripped; empty lines skipped) append the line, and append a 0.5 s break
when the line index is not the last index. -/
def ssmlPieces (total : Nat) : List Str → Nat → Str
  | [], _ => []
  | line :: rest, i =>
    if (stripList line).isEmpty then ssmlPieces total rest (i + 1)
    else stripList line ++ (if i < total - 1 then brk05 else []) ++ ssmlPieces total rest (i + 1)

/-- `ssml_content.replace('|', '<break time="0.3s"/>')`. -/
def replacePipe : Str → Str
  | [] => []
  | c :: rest => (if c == '|' then brk03 else [c]) ++ replacePipe rest

/-- `ssml_content.replace('완료', '완료<break time="0.7s"/>')`. -/
def replaceDone : Str → Str
  | [] => []
  | [c] => [c]
  | c1 :: c2 :: rest =>
    if c1 == '완' && c2 == '료' then '완' :: '료' :: (brk07 ++ replaceDone rest)
    else c1 :: replaceDone (c2 :: rest)

/-- The fixed lead-in prefix of the final SSML:
`'<speak>오늘의 주요 뉴스를 요약해드리겠습니다.<break time="1s"/>'`. -/
def ttsLeadEnvelope : Str :=
  "<speak>오늘의 주요 뉴스를 요약해드리겠습니다.<break time=\"1s\"/>".data

/-- `prepare_tts_text_with_pauses`, translated step by step from the source:
clean, cap at 3000 characters, split into lines, assemble the SSML body with
0.5 s breaks between lines, apply the `|` and `완료` substitutions, then
replace the leading `<speak>` (7 characters) by the lead-in envelope. -/
def prepare_tts_text_with_pauses (text : Str) : Str :=
  let c5 := cap3000 (clean_stage text)
  let lines := splitNl c5
  let ssml := "<speak>".data ++ ssmlPieces lines.length lines 0 ++ "</speak>".data
  ttsLeadEnvelope ++ (replaceDone (replacePipe ssml)).drop 7

/-- The plain (non-SSML) text built by the fallback branch of
`generate_news_audio`: the same cleaning and 3000-character cap, with the
spoken lead-in sentence prepended. -/
def plain_fallback_text (text : Str) : Str :=
  "오늘의 주요 뉴스를 요약해드리겠습니다. ".data ++ cap3000 (clean_stage text)

/-- Result of one run of `generate_news_audio`: the texts handed to the
speech synthesizer, in order, and the returned path (`None` on double
failure). -/
structure AudioRun where
  attempts : List Str
  result : Option Str

/-- `generate_news_audio`: synthesize the SSML text; on any failure retry
once with the plain text; on failure of that too, return `None` (the second
`except` swallows the error).  The outcomes of the two external edge-tts
calls are the boolean parameters. -/
def generate_news_audio (ssmlOk plainOk : Bool) (text tmpPath : Str) : AudioRun :=
  if ssmlOk then ⟨[prepare_tts_text_with_pauses text], some tmpPath⟩
  else if plainOk then ⟨[prepare_tts_text_with_pauses text, plain_fallback_text text], some tmpPath⟩
  else ⟨[prepare_tts_text_with_pauses text, plain_fallback_text text], none⟩

/-- Outcome of the library date parse chain
(`parsedate_tz` / `mktime_tz` / `fromtimestamp`): a parsed epoch time in
seconds, a `None` result, or a raised exception. -/
inductive ParseOutcome
  | parsed (t : Int)
  | unparseable
  | raiseEx

/-- The ambient library environment of the collection stage: HTML text
extraction (BeautifulSoup `get_text`), the date parser, and the current
wall-clock time in epoch seconds. -/
structure Env where
  getText : Str → Str
  parseDate : Str → ParseOutcome
  now : Int

/-- `is_recent_article`: a missing (or empty, hence falsy) published field is
recent; an unparseable date is recent; a date-parsing exception is caught and
reported recent; otherwise the article is recent iff its parsed time is
strictly after `now - hours`. -/
def is_recent_article (env : Env) (published : Option Str) (hours : Int) : Bool :=
  match published with
  | none => true
  | some s =>
    if s.isEmpty then true
    else
      match env.parseDate s with
      | .parsed t => decide (env.now - hours * 3600 < t)
      | .unparseable => true
      | .raiseEx => true

/-- `re.sub(r'[\r\n\t]', ' ', s)` (applied inside `clean_text`). -/
def replaceRNT (l : Str) : Str :=
  l.map (fun c => if c == '\r' || c == '\n' || c == '\t' then ' ' else c)

/-- `clean_text`: empty input maps to the empty string; otherwise extract the
plain text, collapse whitespace, blank out `\r\n\t`, strip, and truncate to
500 characters. -/
def clean_text (getText : Str → Str) (text : Str) : Str :=
  if text.isEmpty then []
  else (stripList (replaceRNT (collapseWs (getText text)))).take 500

/-- One parsed feed entry; every field is fetched with `entry.get(...)`, so
each is optional. -/
structure Entry where
  title : Option Str
  summary : Option Str
  description : Option Str
  link : Option Str
  published : Option Str

/-- One selected article, as built in `collect_news_by_keyword`. -/
structure Article where
  title : Str
  link : Str
  summary : Str
  published : Str
  source : Str

/-- One parsed feed (`feedparser.parse` result): the `bozo` flag, whether
`bozo_exception` is set, and the entry list. -/
structure Feed where
  bozo : Bool
  bozo_exception : Bool
  entries : List Entry

/-- The source tag stored in the article:
`'international' if is_international else 'domestic'`. -/
def srcTag (isIntl : Bool) : Str :=
  if isIntl then "international".data else "domestic".data

/-- Per-entry processing of `collect_news_by_keyword`: recency filter, title
cleaning, minimum-length filter, then the article record.  Returns `none`
when the entry is skipped. -/
def entry_article (env : Env) (isIntl : Bool) (e : Entry) : Option Article :=
  if !(is_recent_article env e.published 24) then none
  else
    if (clean_text env.getText (e.title.getD [])).isEmpty then none
    else if (clean_text env.getText (e.title.getD [])).length < 10 then none
    else some ⟨(clean_text env.getText (e.title.getD [])).take 100,
               e.link.getD [],
               clean_text env.getText (match e.summary with
                                       | some s => s
                                       | none => e.description.getD []),
               e.published.getD [],
               srcTag isIntl⟩

/-- The inner entry loop of `collect_news_by_keyword`: accumulate into the
domestic or international list only while the corresponding cap is not yet
reached, and break out of the loop once both caps are reached. -/
def processEntries (env : Env) (isIntl : Bool) (maxD maxI : Nat) :
    List Entry → List Article → List Article → List Article × List Article
  | [], d, i => (d, i)
  | e :: rest, d, i =>
    match entry_article env isIntl e with
    | none => processEntries env isIntl maxD maxI rest d i
    | some a =>
      if isIntl then
        if i.length < maxI then
          if maxD ≤ d.length && maxI ≤ (i ++ [a]).length then (d, i ++ [a])
          else processEntries env isIntl maxD maxI rest d (i ++ [a])
        else
          if maxD ≤ d.length && maxI ≤ i.length then (d, i)
          else processEntries env isIntl maxD maxI rest d i
      else
        if d.length < maxD then
          if maxD ≤ (d ++ [a]).length && maxI ≤ i.length then (d ++ [a], i)
          else processEntries env isIntl maxD maxI rest (d ++ [a]) i
        else
          if maxD ≤ d.length && maxI ≤ i.length then (d, i)
          else processEntries env isIntl maxD maxI rest d i

/-- The outer feed loop of `collect_news_by_keyword`: classify the feed by
its URL domain, skip feeds whose fetch raised (`fetch` returns `none`) or
which parsed with a bozo exception, process the first 10 entries, and stop
scanning further feeds once both caps are reached. -/
def processFeeds (env : Env) (fetch : Str → Option Feed) (maxD maxI : Nat) :
    List Str → List Article → List Article → List Article × List Article
  | [], d, i => (d, i)
  | url :: rest, d, i =>
    match fetch url with
    | none => processFeeds env fetch maxD maxI rest d i
    | some feed =>
      if feed.bozo && feed.bozo_exception then processFeeds env fetch maxD maxI rest d i
      else
        if maxD ≤ (processEntries env (containsSub "nytimes.com".data url || containsSub "bbci.co.uk".data url) maxD maxI (feed.entries.take 10) d i).1.length
           && maxI ≤ (processEntries env (containsSub "nytimes.com".data url || containsSub "bbci.co.uk".data url) maxD maxI (feed.entries.take 10) d i).2.length then
          processEntries env (containsSub "nytimes.com".data url || containsSub "bbci.co.uk".data url) maxD maxI (feed.entries.take 10) d i
        else
          processFeeds env fetch maxD maxI rest
            (processEntries env (containsSub "nytimes.com".data url || containsSub "bbci.co.uk".data url) maxD maxI (feed.entries.take 10) d i).1
            (processEntries env (containsSub "nytimes.com".data url || containsSub "bbci.co.uk".data url) maxD maxI (feed.entries.take 10) d i).2

/-- The fixed keyword-to-feed-URL map `KEYWORD_FEEDS`. -/
def KEYWORD_FEEDS : List (Str × List Str) :=
  [("군대".data,
    ["https://www.yna.co.kr/rss/northkorea.xml".data,
     "http://newssearch.naver.com/search.naver?where=rss&query=군대&sort=date".data,
     "http://newssearch.naver.com/search.naver?where=rss&query=육군&sort=date".data,
     "https://rss.nytimes.com/services/xml/rss/nyt/World.xml".data,
     "http://feeds.bbci.co.uk/news/world/rss.xml".data]),
   ("정치".data,
    ["https://www.yna.co.kr/rss/politics.xml".data,
     "http://newssearch.naver.com/search.naver?where=rss&query=정치&sort=date".data,
     "http://newssearch.naver.com/search.naver?where=rss&query=국정감사&sort=date".data,
     "https://rss.nytimes.com/services/xml/rss/nyt/Politics.xml".data,
     "http://feeds.bbci.co.uk/news/politics/rss.xml".data]),
   ("주식".data,
    ["https://www.yna.co.kr/rss/economy.xml".data,
     "http://newssearch.naver.com/search.naver?where=rss&query=코스피&sort=date".data,
     "http://newssearch.naver.com/search.naver?where=rss&query=삼성전자&sort=date".data,
     "https://rss.nytimes.com/services/xml/rss/nyt/Business.xml".data,
     "http://feeds.bbci.co.uk/news/business/rss.xml".data]),
   ("AI".data,
    ["http://newssearch.naver.com/search.naver?where=rss&query=인공지능&sort=date".data,
     "http://newssearch.naver.com/search.naver?where=rss&query=AI&sort=date".data,
     "http://newssearch.naver.com/search.naver?where=rss&query=ChatGPT&sort=date".data,
     "https://rss.nytimes.com/services/xml/rss/nyt/Technology.xml".data,
     "http://feeds.bbci.co.uk/news/technology/rss.xml".data])]

/-- `KEYWORD_FEEDS.get(keyword)` (without the default). -/
def lookupFeeds (k : Str) : Option (List Str) :=
  (KEYWORD_FEEDS.find? (fun p => p.1 == k)).map (fun p => p.2)

/-- `collect_news_by_keyword`: run the feed loop over
`KEYWORD_FEEDS.get(keyword, [])` starting from empty accumulators and return
`domestic_articles + international_articles`. -/
def collect_news_by_keyword (env : Env) (fetch : Str → Option Feed)
    (keyword : Str) (maxD maxI : Nat) : List Article :=
  (processFeeds env fetch maxD maxI ((lookupFeeds keyword).getD []) [] []).1 ++
    (processFeeds env fetch maxD maxI ((lookupFeeds keyword).getD []) [] []).2

/-- The fixed keyword-to-emoji map `KEYWORD_EMOJIS`. -/
def KEYWORD_EMOJIS : List (Str × Str) :=
  [("군대".data, "🪖".data), ("정치".data, "🏛️".data),
   ("주식".data, "📈".data), ("AI".data, "🤖".data)]

/-- `KEYWORD_EMOJIS.get(keyword, '📰')`. -/
def emojiOf (k : Str) : Str :=
  ((KEYWORD_EMOJIS.find? (fun p => p.1 == k)).map (fun p => p.2)).getD "📰".data

/-- The recurring block shape `f"{emoji} {keyword}\n{body}"`. -/
def topic_block (kw body : Str) : Str :=
  emojiOf kw ++ (' ' :: (kw ++ ('\n' :: body)))

/-- Outcome of the single `model.generate_content` call: a raised exception
(network error and the like), or a response whose `.text` is returned. -/
inductive GenOutcome
  | raised
  | text (t : Str)

/-- The single quote character (used around the keyword in the prompt). -/
def sqChar : Char := Char.ofNat 39

/-- The source label used in the prompt:
`"🌍해외" if article['source'] == 'international' else "🇰🇷국내"`. -/
def srcIcon (a : Article) : Str :=
  if a.source == srcTag true then "🌍해외".data else "🇰🇷국내".data

/-- The `articles_text` accumulation loop of `summarize_news_with_gemini`
(`enumerate(articles, 1)`). -/
def articles_block : List Article → Nat → Str
  | [], _ => []
  | a :: rest, i =>
    "\n[".data ++ srcIcon a ++ " 기사 ".data ++ Nat.toDigits 10 i ++ "]\n제목: ".data
      ++ a.title ++ "\n내용: ".data ++ a.summary.take 300 ++ "\n".data
      ++ articles_block rest (i + 1)

/-- The full generation prompt of `summarize_news_with_gemini`. -/
def gemini_prompt (kw : Str) (articles : List Article) : Str :=
  "다음은 ".data ++ [sqChar] ++ kw ++ [sqChar]
    ++ " 관련 오늘의 주요 뉴스들입니다. 읽기 쉬운 개조식으로 요약해주세요.\n\n".data
    ++ articles_block articles 1
    ++ "\n\n요약 형식:\n1. 각 주요 내용을 개조식(• 문장)으로 작성\n2. 최대 5개 항목으로 제한  \n3. 각 항목은 한 줄로 간결하게\n4. 구체적 수치나 핵심 키워드 포함\n5. \"~했다\", \"~됐다\" 등 과거형 사용\n6. 중요도 순으로 배열\n\n예시 형식:\n• 첫 번째 핵심 내용이다\n• 두 번째 중요한 소식이다\n• 세 번째 주요 사건이다\n\n요약 (개조식):".data

/-- Post-processing of a successful generation response: strip, bail out on
an empty text, re-split into stripped non-empty lines, normalize bullets,
drop instruction-echo lines, cap at 5 bullet points, bail out if nothing
remains, else format under the emoji/keyword header. -/
def gemini_postprocess (kw : Str) (t : Str) : Str :=
  let summary := stripList t
  if summary.isEmpty then topic_block kw "• 요약 생성에 실패했습니다.".data
  else
    let lines := ((splitNl summary).map stripList).filter (fun l => !l.isEmpty)
    let bullets0 := lines.filterMap (fun line =>
      if startsWith "•".data line then some line
      else if startsWith "-".data line || startsWith "*".data line then
        some ("• ".data ++ stripList (line.drop 1))
      else if startsWith "요약".data line || startsWith "형식".data line
              || startsWith "예시".data line then none
      else some ("• ".data ++ line))
    let bullets := if 5 < bullets0.length then bullets0.take 5 else bullets0
    if bullets.isEmpty then topic_block kw "• 충분한 요약 내용을 생성하지 못했습니다.".data
    else topic_block kw (List.intercalate "\n".data bullets)

/-- `summarize_news_with_gemini`: the returned formatted text, paired with
the number of `model.generate_content` invocations.  An empty article list
short-circuits with the fixed no-news block and zero calls; otherwise the
API is called exactly once and any exception from the call is caught and
replaced by the fixed error block. -/
def summarize_news_with_gemini (gen : Str → GenOutcome) (kw : Str)
    (articles : List Article) : Str × Nat :=
  match articles with
  | [] => (topic_block kw "• 오늘은 관련 주요 뉴스가 없었습니다.".data, 0)
  | a :: rest =>
    (match gen (gemini_prompt kw (a :: rest)) with
     | .raised => topic_block kw "• AI 요약 생성 중 오류가 발생했습니다.".data
     | .text t => gemini_postprocess kw t,
     1)

/-- Result of the module-level environment checks (lines 22-38): either
`sys.exit` with a code and the first printed diagnostic line, or fall
through to the rest of the module (Gemini configuration and the pipeline). -/
inductive StartupResult
  | exited (code : Nat) (msg : Str)
  | passed
deriving DecidableEq

/-- Python truthiness of an `os.getenv` result: `None` and the empty string
are falsy. -/
def truthy : Option Str → Bool
  | none => false
  | some s => !s.isEmpty

/-- The module-level secret checks, in source order: `GEMINI_API_KEY`, then
`TELEGRAM_BOT_TOKEN`, then `TELEGRAM_CHAT_ID`; each missing (falsy) secret
prints a labeled diagnostic and exits with status 1.  These checks precede
`genai.configure` and every network access in the module. -/
def startup_check (gemini botToken chatId : Option Str) : StartupResult :=
  if !truthy gemini then
    .exited 1 "❌ GEMINI_API_KEY 환경 변수가 설정되지 않았습니다.".data
  else if !truthy botToken then
    .exited 1 "❌ TELEGRAM_BOT_TOKEN 환경 변수가 설정되지 않았습니다.".data
  else if !truthy chatId then
    .exited 1 "❌ TELEGRAM_CHAT_ID 환경 변수가 설정되지 않았습니다.".data
  else .passed

/-- Observable actions of the delivery fragment of `main` (lines 486-497). -/
inductive DeliveryEvent
  | textSend (ok : Bool)
  | voiceSend (path : Str) (ok : Bool)
  | unlinkFile (path : Str) (ok : Bool)
  | unlinkFailLogged
deriving DecidableEq

/-- The delivery fragment of `main`: send the text message (its boolean
outcome is `textOk`; `send_telegram_message` catches every exception and
returns a boolean), then, if an audio path was returned and the file exists,
send the voice message and afterwards unconditionally attempt `os.unlink`,
whose own failure is caught and logged.  The function returns the ordered
event trace; it is total, so no exception escapes this fragment. -/
def main_delivery (textOk : Bool) (audio : Option Str) (fileExists : Str → Bool)
    (voiceOk unlinkOk : Bool) : List DeliveryEvent :=
  DeliveryEvent.textSend textOk ::
    (match audio with
     | none => []
     | some p =>
       if fileExists p then
         DeliveryEvent.voiceSend p voiceOk :: DeliveryEvent.unlinkFile p unlinkOk ::
           (if unlinkOk then [] else [DeliveryEvent.unlinkFailLogged])
       else [])

/-- A concrete environment for evaluation: HTML extraction is the identity
(the sample entries are plain text) and every date string is unparseable. -/
def envPlain : Env := ⟨id, fun _ => ParseOutcome.unparseable, 0⟩

/-- A sample entry with a plain Korean title of 16 characters and no other
fields; it passes the recency filter (no published date) and the length
filter. -/
def dupEntry : Entry := ⟨some "오늘의 중요한 군대 소식입니다".data, none, none, none, none⟩

/-- A fetch function under which the first `군대` feed parses cleanly into
two entries with identical titles and every other URL fails to fetch. -/
def dupFetch : Str → Option Feed := fun u =>
  if u = "https://www.yna.co.kr/rss/northkorea.xml".data then
    some ⟨false, false, [dupEntry, dupEntry]⟩
  else none

/-- An environment whose date parser returns `None` on `"u"` and raises on
everything else. -/
def witEnv : Env :=
  ⟨id, fun s => if s = "u".data then ParseOutcome.unparseable else ParseOutcome.raiseEx, 0⟩

/-- A concrete selected article whose headline the fallback should name
according to the claim. -/
def cxHeadline : Article := ⟨"breaking news headline!".data, [], [], [], srcTag false⟩

/-- A 3100-character input, exceeding the speech budget. -/
def bigText : Str := List.replicate 3100 'a'

/-- An input with two non-empty lines and unescapable markup characters. -/
def cxTtsInput : Str := "first news line<\nsecond news& line".data

/-- Exhaustiveness of the startup check: it either exits with status 1 and a
diagnostic, or passes. -/
theorem startup_check_cases (g b c : Option Str) :
    (∃ m, startup_check g b c = StartupResult.exited 1 m)
    ∨ startup_check g b c = StartupResult.passed := by
  unfold startup_check
  split_ifs <;> first
    | exact Or.inl ⟨_, rfl⟩
    | exact Or.inr rfl

/-- The startup check passes exactly when all three secrets are truthy
(present with a non-empty value). -/
theorem startup_check_passed_iff (g b c : Option Str) :
    startup_check g b c = StartupResult.passed
      ↔ (truthy g = true ∧ truthy b = true ∧ truthy c = true) := by
  unfold startup_check
  cases hg : truthy g <;> cases hb : truthy b <;> cases hc : truthy c <;> simp

/-- C2: for every feed entry whose publish-date field is absent, or whose
publish-date text cannot be parsed, or whose parsing raises an exception,
`is_recent_article` returns true, so the entry is never rejected by the
filter for date reasons alone. -/
theorem claim_C2_thm (env : Env) (hours : Int) :
    is_recent_article env none hours = true
    ∧ (∀ s, env.parseDate s = ParseOutcome.unparseable →
        is_recent_article env (some s) hours = true)
    ∧ (∀ s, env.parseDate s = ParseOutcome.raiseEx →
        is_recent_article env (some s) hours = true) := by
  refine ⟨rfl, ?_, ?_⟩ <;>
    · intro s h
      unfold is_recent_article
      by_cases he : s.isEmpty <;> simp [he, h]

/-- Witness for C2 at concrete inputs: an absent date, an unparseable date,
and a date whose parse raises are all treated as recent. -/
theorem claim_C2_wit :
    is_recent_article witEnv none 24 = true
    ∧ is_recent_article witEnv (some "u".data) 24 = true
    ∧ is_recent_article witEnv (some "r".data) 24 = true :=
  ⟨(claim_C2_thm witEnv 24).1,
   (claim_C2_thm witEnv 24).2.1 _ rfl,
   (claim_C2_thm witEnv 24).2.2 _ rfl⟩

/-- C3: for an empty selected-article list, `summarize_news_with_gemini`
returns the fixed no-news sentence decorated with the topic's emoji and
makes zero generation-API calls; for every non-empty article list it invokes
the generation API exactly once (also when the call fails). -/
theorem claim_C3_thm (gen : Str → GenOutcome) (kw : Str) :
    summarize_news_with_gemini gen kw []
      = (topic_block kw "• 오늘은 관련 주요 뉴스가 없었습니다.".data, 0)
    ∧ ∀ (a : Article) (rest : List Article),
        (summarize_news_with_gemini gen kw (a :: rest)).2 = 1 :=
  ⟨rfl, fun _ _ => rfl⟩

/-- Counterexample to C4 as stated: with a non-empty selection and a failing
generation call, the returned fallback does not contain the selected
headline at all (so it does not "name the selected headlines"). -/
theorem claim_C4_cx :
    [cxHeadline] ≠ ([] : List Article)
    ∧ containsSub cxHeadline.title
        ((summarize_news_with_gemini (fun _ => GenOutcome.raised) "AI".data [cxHeadline]).1)
        = false :=
  ⟨List.cons_ne_nil _ _, by decide⟩

/-- C4 (amended): on a failing generation call, an empty response, or a
response with no usable bullet lines, `summarize_news_with_gemini` returns
the corresponding fixed topic-labeled fallback block (which does not include
the headlines), and the caught exception never propagates (the function
returns normally in every case), with exactly one API call made. -/
theorem claim_C4_thm (kw : Str) (a : Article) (rest : List Article) :
    summarize_news_with_gemini (fun _ => GenOutcome.raised) kw (a :: rest)
      = (topic_block kw "• AI 요약 생성 중 오류가 발생했습니다.".data, 1)
    ∧ summarize_news_with_gemini (fun _ => GenOutcome.text []) kw (a :: rest)
      = (topic_block kw "• 요약 생성에 실패했습니다.".data, 1)
    ∧ summarize_news_with_gemini (fun _ => GenOutcome.text "요약 형식".data) kw (a :: rest)
      = (topic_block kw "• 충분한 요약 내용을 생성하지 못했습니다.".data, 1) :=
  ⟨rfl, rfl, rfl⟩

/-- Counterexample to C5 as stated: all three secrets are present in the
environment (as empty strings), yet the startup check does not pass — it
exits with status 1. -/
theorem claim_C5_cx :
    ((some ([] : Str)).isSome = true
      ∧ (some "x".data).isSome = true ∧ (some "y".data).isSome = true)
    ∧ startup_check (some []) (some "x".data) (some "y".data)
        = StartupResult.exited 1 "❌ GEMINI_API_KEY 환경 변수가 설정되지 않았습니다.".data :=
  ⟨⟨rfl, rfl, rfl⟩, rfl⟩

/-- C5 (amended): if any of the three required secrets is absent from the
environment, or present with an empty value (Python truthiness), the
module-level check exits with status 1 and a labeled diagnostic (these
checks run before `genai.configure` and before any network activity); if
all three are present with non-empty (truthy) values, the startup check
passes. -/
theorem claim_C5_thm :
    (∀ g b c : Option Str,
      g = none ∨ g = some [] ∨ b = none ∨ b = some [] ∨ c = none ∨ c = some [] →
      ∃ m, startup_check g b c = StartupResult.exited 1 m)
    ∧ (∀ g b c : Option Str, truthy g = true → truthy b = true → truthy c = true →
      startup_check g b c = StartupResult.passed) := by
  constructor
  · intro g b c h
    rcases startup_check_cases g b c with hm | hp
    · exact hm
    · exfalso
      obtain ⟨t1, t2, t3⟩ := (startup_check_passed_iff g b c).mp hp
      rcases h with rfl | rfl | rfl | rfl | rfl | rfl <;> simp [truthy] at t1 t2 t3
  · intro g b c hg hb hc
    exact (startup_check_passed_iff g b c).mpr ⟨hg, hb, hc⟩

/-- Witness for C5 at concrete inputs: a missing `GEMINI_API_KEY`, an empty
`TELEGRAM_BOT_TOKEN`, and an empty `TELEGRAM_CHAT_ID` each exit with status
1; a complete environment passes. -/
theorem claim_C5_wit :
    (∃ m, startup_check none (some "t".data) (some "c".data) = StartupResult.exited 1 m)
    ∧ (∃ m, startup_check (some "k".data) (some []) (some "c".data)
        = StartupResult.exited 1 m)
    ∧ (∃ m, startup_check (some "k".data) (some "t".data) (some [])
        = StartupResult.exited 1 m)
    ∧ startup_check (some "k".data) (some "t".data) (some "c".data)
        = StartupResult.passed :=
  ⟨claim_C5_thm.1 none _ _ (Or.inl rfl),
   claim_C5_thm.1 _ (some []) _ (Or.inr (Or.inr (Or.inr (Or.inl rfl)))),
   claim_C5_thm.1 _ _ (some []) (Or.inr (Or.inr (Or.inr (Or.inr (Or.inr rfl))))),
   claim_C5_thm.2 _ _ _ rfl rfl rfl⟩

/-- Counterexample to C6 as stated: the text send failed (`textOk = false`),
an audio clip exists, and the voice send is nevertheless attempted — the
code gates the voice send only on the audio file, not on the text-send
outcome. -/
theorem claim_C6_cx :
    main_delivery false (some "news.ogg".data) (fun _ => true) true true
      = [DeliveryEvent.textSend false,
         DeliveryEvent.voiceSend "news.ogg".data true,
         DeliveryEvent.unlinkFile "news.ogg".data true] := rfl

/-- C6 (amended): in the delivery stage of `main`, the voice message is
POSTed whenever an audio clip exists and the file is present, regardless of
whether the preceding text send succeeded; with no audio clip, no voice send
is attempted. -/
theorem claim_C6_thm (textOk : Bool) (audio : Option Str) (fe : Str → Bool)
    (vOk uOk : Bool) :
    (∀ p, audio = some p → fe p = true →
      DeliveryEvent.voiceSend p vOk ∈ main_delivery textOk audio fe vOk uOk)
    ∧ (audio = none → ∀ p ok,
      DeliveryEvent.voiceSend p ok ∉ main_delivery textOk audio fe vOk uOk) := by
  constructor
  · rintro p rfl hfe
    simp [main_delivery, hfe]
  · rintro rfl p ok
    simp [main_delivery]

/-- Witness for C6 at a concrete input: audio exists, text send failed, and
the voice send still happens. -/
theorem claim_C6_wit :
    DeliveryEvent.voiceSend "news.ogg".data true
      ∈ main_delivery false (some "news.ogg".data) (fun _ => true) true true :=
  (claim_C6_thm false (some "news.ogg".data) (fun _ => true) true true).1 _ rfl rfl

/-- C7: `generate_news_audio` synthesizes once from the SSML text built over
the 3000-character-capped cleaned input; on failure it retries exactly once
with the plain (unmarked) text; if that also fails it returns `None` (it is
a total function — no exception escapes); and the cleaned content is
truncated to the 3000-character budget (plus the fixed closing sentence)
whenever it exceeds the budget. -/
theorem claim_C7_thm (plainOk : Bool) (text p : Str) :
    generate_news_audio true plainOk text p
      = ⟨[prepare_tts_text_with_pauses text], some p⟩
    ∧ generate_news_audio false true text p
      = ⟨[prepare_tts_text_with_pauses text, plain_fallback_text text], some p⟩
    ∧ generate_news_audio false false text p
      = ⟨[prepare_tts_text_with_pauses text, plain_fallback_text text], none⟩
    ∧ (3000 < (clean_stage text).length →
        plain_fallback_text text
          = "오늘의 주요 뉴스를 요약해드리겠습니다. ".data
              ++ ((clean_stage text).take 3000 ++ closingSent)) := by
  refine ⟨rfl, rfl, rfl, ?_⟩
  intro h
  unfold plain_fallback_text cap3000
  rw [if_pos h]

/-- `collapseWs` keeps a non-whitespace head character. -/
theorem collapseWs_cons_nonspace (c : Char) (l : Str) (h : pyIsSpace c = false) :
    collapseWs (c :: l) = c :: collapseWs l := by
  simp [collapseWs, h]

/-- `collapseWs` fixes a run of letters. -/
theorem collapseWs_replicate_a (n : Nat) :
    collapseWs (List.replicate n 'a') = List.replicate n 'a' := by
  induction n with
  | zero => rfl
  | succ n ih =>
    rw [List.replicate_succ, collapseWs_cons_nonspace _ _ (by decide), ih]

/-- `stripList` fixes a string without whitespace. -/
theorem stripList_eq_self (l : Str) (h : ∀ c ∈ l, pyIsSpace c = false) :
    stripList l = l := by
  unfold stripList
  have h1 : l.dropWhile pyIsSpace = l :=
    List.dropWhile_eq_self_iff.mpr (fun hl => by
      simp only [List.get_eq_getElem, Bool.not_eq_true]
      exact h _ (List.getElem_mem hl))
  rw [h1]
  have h2 : l.reverse.dropWhile pyIsSpace = l.reverse :=
    List.dropWhile_eq_self_iff.mpr (fun hl => by
      simp only [List.get_eq_getElem, List.getElem_reverse, Bool.not_eq_true]
      exact h _ (List.getElem_mem (by simp only [List.length_reverse] at hl; omega)))
  rw [h2, List.reverse_reverse]

/-- The TTS cleaning stage fixes a run of letters. -/
theorem clean_stage_replicate_a (n : Nat) :
    clean_stage (List.replicate n 'a') = List.replicate n 'a' := by
  unfold clean_stage removeEmojis removeDashes removeBullets
  have e1 : (List.replicate n 'a').filter (fun c => !(emojiChars.contains c))
      = List.replicate n 'a' :=
    List.filter_eq_self.mpr (fun c hc => by rw [List.eq_of_mem_replicate hc]; decide)
  have e2 : (List.replicate n 'a').filter (fun c => !(c == '─')) = List.replicate n 'a' :=
    List.filter_eq_self.mpr (fun c hc => by rw [List.eq_of_mem_replicate hc]; decide)
  have e3 : (List.replicate n 'a').filter (fun c => !(c == '•')) = List.replicate n 'a' :=
    List.filter_eq_self.mpr (fun c hc => by rw [List.eq_of_mem_replicate hc]; decide)
  rw [e1, e2, e3, collapseWs_replicate_a]
  exact stripList_eq_self _ (fun c hc => by rw [List.eq_of_mem_replicate hc]; decide)

/-- Witness for C7 at a concrete over-budget input: the plain fallback text
is the 3000-character truncation plus the closing sentence. -/
theorem claim_C7_wit :
    plain_fallback_text bigText
      = "오늘의 주요 뉴스를 요약해드리겠습니다. ".data
          ++ ((clean_stage bigText).take 3000 ++ closingSent) :=
  (claim_C7_thm true bigText "tmp.ogg".data).2.2.2 (by
    unfold bigText
    rw [clean_stage_replicate_a, List.length_replicate]
    omega)

/-- C9: whenever the audio file exists, `main` attempts the deletion right
after the voice-send attempt on the same control path, for every voice-send
outcome and every deletion outcome; a deletion failure only adds a log event
(it is caught, and the trace still completes normally). -/
theorem claim_C9_thm (textOk : Bool) (p : Str) (fe : Str → Bool) (vOk uOk : Bool)
    (hfe : fe p = true) :
    main_delivery textOk (some p) fe vOk uOk
      = DeliveryEvent.textSend textOk :: DeliveryEvent.voiceSend p vOk ::
          DeliveryEvent.unlinkFile p uOk ::
          (if uOk then [] else [DeliveryEvent.unlinkFailLogged]) := by
  simp [main_delivery, hfe]

/-- Witness for C9 at a concrete input where both the voice send and the
deletion fail: the deletion is still attempted and its failure only logged. -/
theorem claim_C9_wit :
    main_delivery true (some "clip.ogg".data) (fun _ => true) false false
      = DeliveryEvent.textSend true :: DeliveryEvent.voiceSend "clip.ogg".data false ::
          DeliveryEvent.unlinkFile "clip.ogg".data false ::
          (if false then [] else [DeliveryEvent.unlinkFailLogged]) :=
  claim_C9_thm true "clip.ogg".data (fun _ => true) false false rfl

/-- C10: for every keyword that is not a key of `KEYWORD_FEEDS`,
`collect_news_by_keyword` iterates over no feeds and returns the empty list
(it is a total function — no exception is raised). -/
theorem claim_C10_thm (env : Env) (fetch : Str → Option Feed) (kw : Str)
    (maxD maxI : Nat) (h : lookupFeeds kw = none) :
    collect_news_by_keyword env fetch kw maxD maxI = [] := by
  unfold collect_news_by_keyword
  rw [h]
  rfl

/-- Witness for C10 at a concrete unknown keyword. -/
theorem claim_C10_wit :
    collect_news_by_keyword envPlain dupFetch "스포츠".data 5 2 = [] :=
  claim_C10_thm envPlain dupFetch _ 5 2 rfl

/-- One unfolding step of `collapseWs` at a whitespace head followed by at
least one more character. -/
theorem collapseWs_cons_space (c r : Char) (rs : Str) (hc : pyIsSpace c = true) :
    collapseWs (c :: r :: rs)
      = (if pyIsSpace r then collapseWs (r :: rs) else ' ' :: collapseWs (r :: rs)) := by
  conv_lhs => rw [collapseWs]
  rw [if_pos hc]

/-- `collapseWs` on a single whitespace character. -/
theorem collapseWs_singleton_space (c : Char) (hc : pyIsSpace c = true) :
    collapseWs [c] = [' '] := by
  rw [collapseWs, if_pos hc]

/-- Whitespace collapsing never leaves a newline in its output: every
whitespace character (newlines included) is either dropped or replaced by a
space. -/
theorem nl_not_mem_collapseWs (l : Str) : '\n' ∉ collapseWs l := by
  induction l with
  | nil => simp [collapseWs]
  | cons c rest ih =>
    by_cases hc : pyIsSpace c
    · cases rest with
      | nil =>
        rw [collapseWs_singleton_space c hc]
        decide
      | cons r rs =>
        rw [collapseWs_cons_space c r rs hc]
        by_cases hr : pyIsSpace r
        · rw [if_pos hr]
          exact ih
        · rw [if_neg hr]
          intro hmem
          rcases List.mem_cons.mp hmem with h | h
          · exact absurd h (by decide)
          · exact ih h
    · rw [collapseWs_cons_nonspace c rest (by simpa using hc)]
      intro hmem
      rcases List.mem_cons.mp hmem with h | h
      · rw [← h] at hc
        exact hc (by decide)
      · exact ih h

/-- Stripping only removes characters. -/
theorem mem_stripList {x : Char} {l : Str} (h : x ∈ stripList l) : x ∈ l := by
  unfold stripList at h
  rw [List.mem_reverse] at h
  have h2 := (List.dropWhile_sublist _).subset h
  rw [List.mem_reverse] at h2
  exact (List.dropWhile_sublist _).subset h2

/-- The cleaned TTS text contains no newline (the `\s+` collapse replaced
them all by spaces). -/
theorem nl_not_mem_clean_stage (text : Str) : '\n' ∉ clean_stage text :=
  fun h => nl_not_mem_collapseWs _ (mem_stripList h)

/-- Capping at 3000 characters introduces no newline. -/
theorem nl_not_mem_cap3000 {l : Str} (h : '\n' ∉ l) : '\n' ∉ cap3000 l := by
  unfold cap3000
  split
  · intro hm
    rcases List.mem_append.mp hm with hm | hm
    · exact h (List.take_subset _ _ hm)
    · revert hm
      decide
  · exact h

/-- Splitting a newline-free string on newlines yields that single line. -/
theorem splitNl_no_nl {l : Str} (h : '\n' ∉ l) : splitNl l = [l] := by
  induction l with
  | nil => rfl
  | cons c rest ih =>
    have hne : (c == '\n') = false :=
      beq_eq_false_iff_ne.mpr (fun he => h (List.mem_cons.mpr (Or.inl he.symm)))
    have hrest : '\n' ∉ rest := fun hm => h (List.mem_cons.mpr (Or.inr hm))
    simp only [splitNl, ih hrest, hne]
    simp

/-- The SSML loop over a single line reduces to the stripped line, with no
0.5 s break inserted (the break is guarded by `i < total - 1`, which fails
for the only line). -/
theorem ssmlPieces_single (l : Str) : ssmlPieces 1 [l] 0 = stripList l := by
  by_cases h : (stripList l).isEmpty
  · simp only [ssmlPieces, h, if_pos]
    exact (List.isEmpty_iff.mp h).symm
  · simp [ssmlPieces, h]

/-- C8 (amended): because the whitespace collapse replaces every newline by
a space before the split, the cleaned text always forms a single line, so
`prepare_tts_text_with_pauses` inserts no between-line pause at all: its
output is exactly the lead-in envelope followed by the single stripped
content block (after the `|` and `완료` substitutions), with no character
escaping applied. -/
theorem claim_C8_thm (text : Str) :
    splitNl (cap3000 (clean_stage text)) = [cap3000 (clean_stage text)]
    ∧ prepare_tts_text_with_pauses text
        = ttsLeadEnvelope
            ++ (replaceDone (replacePipe
                  ("<speak>".data ++ stripList (cap3000 (clean_stage text))
                    ++ "</speak>".data))).drop 7 := by
  have hnl : '\n' ∉ cap3000 (clean_stage text) :=
    nl_not_mem_cap3000 (nl_not_mem_clean_stage text)
  have hs := splitNl_no_nl hnl
  refine ⟨hs, ?_⟩
  have hdef : prepare_tts_text_with_pauses text
      = ttsLeadEnvelope
          ++ (replaceDone (replacePipe
                ("<speak>".data
                  ++ ssmlPieces (splitNl (cap3000 (clean_stage text))).length
                      (splitNl (cap3000 (clean_stage text))) 0
                  ++ "</speak>".data))).drop 7 := rfl
  rw [hdef, hs, List.length_singleton, ssmlPieces_single]

/-- Counterexample to C8 as stated: the input has two non-empty lines, yet
the produced SSML contains no 0.5 s break between them (the newline was
collapsed into a space), and the special characters are not escaped (`&`
passes through verbatim, no `&amp;` appears, and `<` from the input text
survives unescaped inside the markup). -/
theorem claim_C8_cx :
    (((splitNl cxTtsInput).map stripList).filter (fun l => !l.isEmpty)).length = 2
    ∧ containsSub brk05 (prepare_tts_text_with_pauses cxTtsInput) = false
    ∧ containsSub "&amp;".data (prepare_tts_text_with_pauses cxTtsInput) = false
    ∧ containsSub "&".data (prepare_tts_text_with_pauses cxTtsInput) = true
    ∧ containsSub "line<".data (prepare_tts_text_with_pauses cxTtsInput) = true := by
  decide

/-- The source tag of an accepted article is determined by the feed class. -/
theorem entry_article_source (env : Env) (isIntl : Bool) (e : Entry) (a : Article)
    (h : entry_article env isIntl e = some a) : a.source = srcTag isIntl := by
  unfold entry_article at h
  split_ifs at h
  all_goals first
    | exact Option.noConfusion h
    | (cases h; rfl)

/-- Appending one article with the right tag preserves a per-class tag
invariant. -/
theorem append_one_src (xs : List Article) (a : Article) (t : Str)
    (hx : ∀ b ∈ xs, b.source = t) (ha : a.source = t) :
    ∀ b ∈ xs ++ [a], b.source = t := by
  intro b hb
  rcases List.mem_append.mp hb with hb | hb
  · exact hx b hb
  · rw [List.mem_singleton] at hb
    rw [hb]
    exact ha

/-- The entry loop preserves the selection invariant: the accumulators never
exceed their caps and stay correctly tagged. -/
theorem processEntries_inv (env : Env) (isIntl : Bool) (maxD maxI : Nat) :
    ∀ (es : List Entry) (d i : List Article),
      d.length ≤ maxD → i.length ≤ maxI →
      (∀ a ∈ d, a.source = srcTag false) → (∀ a ∈ i, a.source = srcTag true) →
      (processEntries env isIntl maxD maxI es d i).1.length ≤ maxD
      ∧ (processEntries env isIntl maxD maxI es d i).2.length ≤ maxI
      ∧ (∀ a ∈ (processEntries env isIntl maxD maxI es d i).1, a.source = srcTag false)
      ∧ (∀ a ∈ (processEntries env isIntl maxD maxI es d i).2, a.source = srcTag true) := by
  intro es
  induction es with
  | nil =>
    intro d i h1 h2 h3 h4
    simpa only [processEntries] using ⟨h1, h2, h3, h4⟩
  | cons e rest ih =>
    intro d i h1 h2 h3 h4
    cases hea : entry_article env isIntl e with
    | none =>
      simp only [processEntries, hea]
      exact ih d i h1 h2 h3 h4
    | some a =>
      have hsrc := entry_article_source env isIntl e a hea
      simp only [processEntries, hea]
      cases isIntl with
      | true =>
        rw [if_pos rfl]
        split_ifs with hlen hbrk hbrk2
        · exact ⟨h1, by simpa using Nat.succ_le_of_lt hlen, h3,
            append_one_src i a _ h4 hsrc⟩
        · exact ih d (i ++ [a]) h1 (by simpa using Nat.succ_le_of_lt hlen) h3
            (append_one_src i a _ h4 hsrc)
        · exact ⟨h1, h2, h3, h4⟩
        · exact ih d i h1 h2 h3 h4
      | false =>
        rw [if_neg (by simp)]
        split_ifs with hlen hbrk hbrk2
        · exact ⟨by simpa using Nat.succ_le_of_lt hlen, h2,
            append_one_src d a _ h3 hsrc, h4⟩
        · exact ih (d ++ [a]) i (by simpa using Nat.succ_le_of_lt hlen) h2
            (append_one_src d a _ h3 hsrc) h4
        · exact ⟨h1, h2, h3, h4⟩
        · exact ih d i h1 h2 h3 h4

/-- The feed loop preserves the selection invariant. -/
theorem processFeeds_inv (env : Env) (fetch : Str → Option Feed) (maxD maxI : Nat) :
    ∀ (urls : List Str) (d i : List Article),
      d.length ≤ maxD → i.length ≤ maxI →
      (∀ a ∈ d, a.source = srcTag false) → (∀ a ∈ i, a.source = srcTag true) →
      (processFeeds env fetch maxD maxI urls d i).1.length ≤ maxD
      ∧ (processFeeds env fetch maxD maxI urls d i).2.length ≤ maxI
      ∧ (∀ a ∈ (processFeeds env fetch maxD maxI urls d i).1, a.source = srcTag false)
      ∧ (∀ a ∈ (processFeeds env fetch maxD maxI urls d i).2, a.source = srcTag true) := by
  intro urls
  induction urls with
  | nil =>
    intro d i h1 h2 h3 h4
    simpa only [processFeeds] using ⟨h1, h2, h3, h4⟩
  | cons url rest ih =>
    intro d i h1 h2 h3 h4
    cases hf : fetch url with
    | none =>
      simp only [processFeeds, hf]
      exact ih d i h1 h2 h3 h4
    | some feed =>
      have hpe := processEntries_inv env
        (containsSub "nytimes.com".data url || containsSub "bbci.co.uk".data url)
        maxD maxI (feed.entries.take 10) d i h1 h2 h3 h4
      simp only [processFeeds, hf]
      split_ifs with hb hbrk
      · exact ih d i h1 h2 h3 h4
      · exact hpe
      · exact ih _ _ hpe.1 hpe.2.1 hpe.2.2.1 hpe.2.2.2

/-- C1 (amended): for every topic, environment, and fetch behavior, the
article list returned by `collect_news_by_keyword` contains at most
`max_domestic` entries classified domestic and at most `max_international`
entries classified international (the run uses the defaults 5 and 2); the
code performs no title-based deduplication, so identically-titled entries
can co-occur. -/
theorem claim_C1_thm (env : Env) (fetch : Str → Option Feed) (kw : Str)
    (maxD maxI : Nat) :
    ((collect_news_by_keyword env fetch kw maxD maxI).countP
        (fun a => a.source == srcTag false)) ≤ maxD
    ∧ ((collect_news_by_keyword env fetch kw maxD maxI).countP
        (fun a => a.source == srcTag true)) ≤ maxI := by
  obtain ⟨h1, h2, h3, h4⟩ := processFeeds_inv env fetch maxD maxI
    ((lookupFeeds kw).getD []) [] []
    (Nat.zero_le _) (Nat.zero_le _) (by simp) (by simp)
  unfold collect_news_by_keyword
  constructor
  · rw [List.countP_append]
    have hz : (processFeeds env fetch maxD maxI ((lookupFeeds kw).getD []) [] []).2.countP
        (fun a => a.source == srcTag false) = 0 := by
      rw [List.countP_eq_zero]
      intro a ha
      rw [h4 a ha]
      decide
    rw [hz]
    exact le_trans (by simpa using List.countP_le_length _) h1
  · rw [List.countP_append]
    have hz : (processFeeds env fetch maxD maxI ((lookupFeeds kw).getD []) [] []).1.countP
        (fun a => a.source == srcTag true) = 0 := by
      rw [List.countP_eq_zero]
      intro a ha
      rw [h3 a ha]
      decide
    rw [hz]
    exact le_trans (by simpa using List.countP_le_length _) h2

/-- Counterexample to C1 as stated: with a feed that delivers two recent
entries carrying the identical title, both are selected — the returned list
has two entries with the same normalized (stripped) title, because the code
never deduplicates titles. -/
theorem claim_C1_cx :
    ¬ ((collect_news_by_keyword envPlain dupFetch "군대".data 5 2).map
        (fun a => stripList a.title)).Nodup := by
  decide
